import Mathlib

/-!
Verification of the catalog-scan + batched-query + result-assembly pipeline
(src/src/lambdas/glue_lambda.py and src/src/lambdas/query_monitoring_lambda.py).

External services (Glue catalog pagination, Athena submission/polling/fetch,
the S3/parquet sink) are modelled as oracles supplied through an `Env`
structure: each oracle field records what the corresponding external call
would return, including injected exceptions (`Option String` error slots or
`Except String` results).  The lambda handlers themselves are translated
function-by-function from the Python source; the `RunTrace` output records,
besides the returned `{statusCode, body}` value, which execution ids were
polled and which sink write attempts were made, so that claims about
side effects can be stated.
-/

namespace GlueLambda

/-- Athena query-execution states as observed by `get_csv_result`
(glue_lambda.py lines 144-153): the poll loop breaks exactly on
SUCCEEDED, FAILED or CANCELLED. -/
inductive AthenaState where
  | QUEUED
  | RUNNING
  | SUCCEEDED
  | FAILED
  | CANCELLED
deriving DecidableEq, Repr

/-- One row of a batch query result: the three columns selected by the SQL
rendered at glue_lambda.py line 81 (`database_name`, `table_name`,
`row_count`).  Note there is no `last_updated` column. -/
structure RowCountRecord where
  database_name : String
  table_name : String
  row_count : Nat
deriving DecidableEq, Repr

/-- Column list of every batch result and hence of the combined dataframe
written by the handler, read off the column aliases of the SELECT rendered
at glue_lambda.py line 81. -/
def rowCountColumns : List String := ["database_name", "table_name", "row_count"]

/-- Executable model of Python `str.startswith`: a character-list prefix
test. -/
def strStartsWith (s pre : String) : Bool := pre.toList.isPrefixOf s.toList

/-- Executable model of Python `str.endswith`: a character-list suffix
test. -/
def strEndsWith (s post : String) : Bool := post.toList.isSuffixOf s.toList

/-- glue_lambda.py lines 10-33 (`get_databases`): iterate the paginator pages,
skip any database name ending in the reserved suffix, accumulate the rest;
on any exception return the empty list.  `pages` is what the paginator
yields, `err` an injected exception. -/
def get_databases (pages : List (List String)) (err : Option String) : List String :=
  match err with
  | some _ => []
  | none => pages.flatten.filter (fun n => !(strEndsWith n "_staging"))

/-- The static database denylist the specification mentions.  The source
(`get_databases`, glue_lambda.py lines 21-26) filters ONLY on the
reserved suffix; no denylist of database names appears anywhere in the
repository, so the denied set is empty. -/
def databaseDenylist : List String := []

/-- glue_lambda.py lines 36-62 (`get_tables`): iterate the paginator pages for
one database, skip any table name starting with the reserved underscore
prefix, accumulate the rest; on any exception return the empty list. -/
def get_tables (database_name : String) (pages : List (List String))
    (err : Option String) : List String :=
  match err with
  | some _ => []
  | none => pages.flatten.filter (fun n => !(strStartsWith n "_"))

/-- The per-table counting statement rendered at glue_lambda.py line 81
(f-string interpolation of the database and table names). -/
def renderQuery (db t : String) : String :=
  "SELECT \x27" ++ db ++ "\x27 AS database_name, \x27" ++ t ++
    "\x27 AS table_name, COUNT(*) AS row_count FROM " ++ db ++ "." ++ t

/-- glue_lambda.py lines 78-81: flatten the `all_tables` dict (insertion
order: database-major) into the ordered list of rendered per-table
counting statements. -/
def sqlQueries (all_tables : List (String × List String)) : List String :=
  all_tables.flatMap (fun p => p.2.map (fun t => renderQuery p.1 t))

/-- Ceiling division `(n + batch_size - 1) // batch_size` from
glue_lambda.py line 89. -/
def totalBatches (n batch_size : Nat) : Nat := (n + batch_size - 1) / batch_size

/-- The batch windows of glue_lambda.py lines 94-97: for each
`batch_num < totalBatches`, the slice
`sql_queries[batch_num*batch_size : min((batch_num+1)*batch_size, len)]`.
`List.drop/take` clamp exactly like the Python slice bound `min (...) len`. -/
def batchSlices (qs : List α) (batch_size : Nat) : List (List α) :=
  (List.range (totalBatches qs.length batch_size)).map
    (fun i => (qs.drop (i * batch_size)).take batch_size)

/-- glue_lambda.py line 99: join the batch statements with UNION ALL. -/
def unionQuery (batch : List String) : String :=
  String.intercalate " UNION ALL " batch

/-- The submission loop of glue_lambda.py lines 94-124: for each batch in
order, call `start_query_execution` (the `submit` oracle, fed the batch
index and the union query); on success append the returned execution id,
on an exception log and `continue` to the next batch. -/
def submitLoop (submit : Nat → String → Except String String) :
    List (Nat × List String) → List String
  | [] => []
  | (i, bq) :: rest =>
    match submit i (unionQuery bq) with
    | Except.ok id => id :: submitLoop submit rest
    | Except.error _ => submitLoop submit rest

/-- glue_lambda.py lines 65-133 (`get_row_count`): build the statements,
return `[]` immediately when there are none (lines 83-85), otherwise submit
the batch windows and return the collected execution ids; any exception
escaping the body (the outer `except`, lines 129-133, modelled by
`outerError`) also yields `[]`. -/
def get_row_count (all_tables : List (String × List String)) (batch_size : Nat)
    (submit : Nat → String → Except String String) (outerError : Option String) :
    List String :=
  match outerError with
  | some _ => []
  | none =>
    let qs := sqlQueries all_tables
    if qs.isEmpty then []
    else submitLoop submit (batchSlices qs batch_size).enum

/-- glue_lambda.py lines 135-167 (`get_csv_result`): poll until the first
terminal state (`state` is that terminal state), then on SUCCEEDED read the
CSV from S3 (the `fetch` oracle) and return it; on FAILED/CANCELLED, or on
any exception while fetching, return None. -/
def get_csv_result (state : AthenaState)
    (fetch : Except String (List RowCountRecord)) : Option (List RowCountRecord) :=
  if state = AthenaState.SUCCEEDED then
    match fetch with
    | Except.ok rows => some rows
    | Except.error _ => none
  else none

/-- The lambda's `{statusCode, body}` return value. -/
structure LambdaResult where
  statusCode : Nat
  body : String
deriving DecidableEq, Repr

/-- One attempted call of `wr.s3.to_parquet` (glue_lambda.py lines 214-222),
recording the dataframe rows and columns and the literal keyword arguments
of the call site. -/
structure WriteEvent where
  rows : List RowCountRecord
  columns : List String
  mode : String
  path : String
  database : String
  table : String
deriving DecidableEq, Repr

/-- The write attempt the handler makes at glue_lambda.py lines 213-222:
the combined rows, the three result columns, and the literal arguments
`mode=overwrite`, `database=data-monitoring-database`,
`table=data_monitoring_table`. -/
def runWriteEvent (bucket : String) (rows : List RowCountRecord) : WriteEvent :=
  { rows := rows
    columns := rowCountColumns
    mode := "overwrite"
    path := "s3://glue-lambda-bucket-" ++ bucket ++ "/data-schema/combined-results.parquet"
    database := "data-monitoring-database"
    table := "data_monitoring_table" }

/-- Dataset-write semantics of `wr.s3.to_parquet` with `dataset=True`
(the awswrangler library): `mode=append` adds the new rows to the existing
dataset, `mode=overwrite` deletes the existing dataset files and replaces
them with the new rows. -/
def applyWrite (sink : List RowCountRecord) (w : WriteEvent) : List RowCountRecord :=
  if w.mode = "overwrite" then w.rows else sink ++ w.rows

/-- The oracle environment of one handler invocation: everything the
external services would answer, with injectable exceptions. -/
structure Env where
  dbPages : List (List String)
  dbError : Option String
  tblPages : String → List (List String)
  tblError : String → Option String
  submit : Nat → String → Except String String
  rowCountOuterError : Option String
  finalState : String → AthenaState
  fetch : String → Except String (List RowCountRecord)
  concatError : Option String
  writeError : Option String
  bucket : String

/-- glue_lambda.py lines 179-182: list tables per enumerated database,
building the `all_tables` dict in database order. -/
def handlerAllTables (env : Env) : List (String × List String) :=
  (get_databases env.dbPages env.dbError).map
    (fun d => (d, get_tables d (env.tblPages d) (env.tblError d)))

/-- glue_lambda.py line 185: the execution ids returned by `get_row_count`
with the hard-coded batch size 20. -/
def handlerQids (env : Env) : List String :=
  get_row_count (handlerAllTables env) 20 env.submit env.rowCountOuterError

/-- glue_lambda.py lines 195-205: poll and fetch each execution id in order,
keeping only non-None results (`all_results`). -/
def allResults (env : Env) : List (List RowCountRecord) :=
  (handlerQids env).filterMap
    (fun id => get_csv_result (env.finalState id) (env.fetch id))

/-- What one invocation did: the returned value, the execution ids the
poll-and-fetch loop processed, and the sink write attempts made. -/
structure RunTrace where
  result : LambdaResult
  polled : List String
  writes : List WriteEvent
deriving DecidableEq, Repr

/-- glue_lambda.py lines 169-242 (`handler`): enumerate, batch and submit;
if no execution ids, return the 400 result immediately (lines 187-192)
without polling or writing; otherwise poll and fetch every id; if every
batch came back None, return the 500 result (lines 228-233); otherwise
concatenate (`concatError` injects a failure there, caught by the outer
`except` of lines 235-242 with NO write attempt) and attempt exactly one
`to_parquet` write of the combined rows; if the write throws
(`writeError`) the outer `except` returns the 500 error result after that
single attempt, else the 200 result is returned. -/
def handler (env : Env) : RunTrace :=
  if (handlerQids env).isEmpty then
    { result := { statusCode := 400, body := "No tables found to query." }
      polled := [], writes := [] }
  else if (allResults env).isEmpty then
    { result := { statusCode := 500
                  body := "Failed to retrieve CSV results from Athena batches." }
      polled := handlerQids env, writes := [] }
  else
    match env.concatError with
    | some e =>
      { result := { statusCode := 500, body := "Error occurred: " ++ e }
        polled := handlerQids env, writes := [] }
    | none =>
      match env.writeError with
      | some e =>
        { result := { statusCode := 500, body := "Error occurred: " ++ e }
          polled := handlerQids env
          writes := [runWriteEvent env.bucket (allResults env).flatten] }
      | none =>
        { result := { statusCode := 200
                      body := "Successfully listed databases and tables." }
          polled := handlerQids env
          writes := [runWriteEvent env.bucket (allResults env).flatten] }

/-- A submission oracle that always succeeds, returning execution ids in
batch order. -/
def okSubmit : Nat → String → Except String String :=
  fun i _ => Except.ok ("qid" ++ toString i)

def sampleRow : RowCountRecord :=
  { database_name := "db1", table_name := "t1", row_count := 42 }

/-- A record persisted by an earlier invocation, used to examine what the
current run's write does to previously written data. -/
def priorRecord : RowCountRecord :=
  { database_name := "old_db", table_name := "old_t", row_count := 7 }

/-- A fully successful invocation: one database, one table, one batch, one
succeeded query, clean write. -/
def okEnv : Env :=
  { dbPages := [["db1"]]
    dbError := none
    tblPages := fun _ => [["t1"]]
    tblError := fun _ => none
    submit := okSubmit
    rowCountOuterError := none
    finalState := fun _ => AthenaState.SUCCEEDED
    fetch := fun _ => Except.ok [sampleRow]
    concatError := none
    writeError := none
    bucket := "bkt" }

/-- Same invocation but an exception is raised during the aggregation
(`pd.concat`) step, after one batch's rows were already fetched. -/
def concatFailEnv : Env := { okEnv with concatError := some "concat blew up" }

/-- Same invocation but the final `to_parquet` write itself throws. -/
def writeFailEnv : Env := { okEnv with writeError := some "S3 access denied" }

/-- An invocation whose catalog is empty. -/
def emptyEnv : Env := { okEnv with dbPages := [] }

/-- An invocation where every batch submission throws. -/
def allErrEnv : Env :=
  { okEnv with submit := fun _ _ => Except.error "start_query_execution denied" }

/-- A submission oracle whose first batch submission throws while the
later ones succeed. -/
def failFirstSubmit : Nat → String → Except String String :=
  fun i _ => if i = 0 then Except.error "boom" else Except.ok ("qid" ++ toString i)

/-- 21 table names, so that the hard-coded batch size 20 yields two batches. -/
def manyTables : List String := (List.range 21).map (fun i => "t" ++ toString i)

/-- An invocation with two batches whose first query job ends FAILED while
the second succeeds. -/
def mixedEnv : Env :=
  { okEnv with
    tblPages := fun _ => [manyTables]
    finalState := fun id =>
      if id = "qid0" then AthenaState.FAILED else AthenaState.SUCCEEDED }

end GlueLambda

namespace MonitoringLambda

open GlueLambda (batchSlices)

/-- One element of the `extracted_list` built by `get_query_details`
(query_monitoring_lambda.py lines 77-89). -/
structure QueryDetail where
  id : Option String
  query : Option String
  state : Option String
  date : String
  runTime : String
  dataScanned : String
  workGroup : Option String
  queryType : Option String
  queryOutputLocation : Option String
deriving DecidableEq, Repr

/-- query_monitoring_lambda.py lines 104-126 (`handler`): batch the query ids
into windows of BATCH_SIZE = 50 (`ids[i:i+BATCH_SIZE]` for
`i in range(0, len(ids), BATCH_SIZE)`, the same slicing as `batchSlices`),
fetch details per batch (the `details` oracle), and, when any details were
collected, stamp the dataframe with ONE `last_updated` value
(`pd.Timestamp.now()` evaluated once at line 117, broadcast to every row);
with no details, nothing is built. `now` is that single timestamp. -/
def monitoring_handler (ids : List String)
    (details : List String → List QueryDetail) (now : Nat) :
    List (QueryDetail × Nat) :=
  let all_query_details := ((batchSlices ids 50).map details).flatten
  if all_query_details.isEmpty then []
  else all_query_details.map (fun d => (d, now))

def sampleDetail : QueryDetail :=
  { id := some "q-abc", query := some "SELECT 1", state := some "SUCCEEDED"
    date := "2024-01-01", runTime := "1.0 sec", dataScanned := "10 bytes"
    workGroup := some "primary", queryType := some "DML"
    queryOutputLocation := none }

end MonitoringLambda

namespace GlueLambda

section BatchingLemmas

variable {α : Type}

theorem totalBatches_zero (B : Nat) : totalBatches 0 B = 0 := by
  unfold totalBatches
  rcases B with _ | b
  · simp
  · have h1 : 0 + (b + 1) - 1 = b := by omega
    rw [h1]
    exact Nat.div_eq_of_lt (Nat.lt_succ_self b)

theorem totalBatches_succ_sub (n B : Nat) (hn : 1 ≤ n) (hB : 1 ≤ B) :
    totalBatches n B = totalBatches (n - B) B + 1 := by
  unfold totalBatches
  by_cases h : n ≤ B
  · have h1 : n - B = 0 := by omega
    rw [h1]
    have h2 : 0 + B - 1 = B - 1 := by omega
    rw [h2, Nat.div_eq_of_lt (by omega : B - 1 < B)]
    have h4 : n + B - 1 = (n - 1) + B := by omega
    rw [h4, Nat.add_div_right _ (by omega : 0 < B),
      Nat.div_eq_of_lt (by omega : n - 1 < B)]
  · have h4 : n + B - 1 = ((n - B) + B - 1) + B := by omega
    rw [h4, Nat.add_div_right _ (by omega : 0 < B)]

theorem batchSlices_cons (qs : List α) (B : Nat) (hq : qs ≠ []) (hB : 1 ≤ B) :
    batchSlices qs B = qs.take B :: batchSlices (qs.drop B) B := by
  unfold batchSlices
  have hn : 1 ≤ qs.length := List.length_pos.mpr hq
  rw [List.length_drop, totalBatches_succ_sub qs.length B hn hB,
    List.range_succ_eq_map, List.map_cons, List.map_map]
  congr 1
  · simp
  · apply List.map_congr_left
    intro i _
    show (qs.drop (Nat.succ i * B)).take B = ((qs.drop B).drop (i * B)).take B
    rw [List.drop_drop, Nat.succ_mul, Nat.add_comm (i * B) B]

theorem batchSlices_flatten (B : Nat) (hB : 1 ≤ B) (qs : List α) :
    (batchSlices qs B).flatten = qs := by
  generalize hn : qs.length = n
  induction n using Nat.strong_induction_on generalizing qs with
  | _ n ih =>
    by_cases hq : qs = []
    · subst hq
      simp [batchSlices, totalBatches_zero]
    · rw [batchSlices_cons qs B hq hB, List.flatten_cons]
      have h1 : 1 ≤ qs.length := List.length_pos.mpr hq
      have hlt : (qs.drop B).length < n := by
        rw [List.length_drop]
        omega
      rw [ih (qs.drop B).length hlt (qs.drop B) rfl]
      exact List.take_append_drop B qs

theorem batchSlices_length (qs : List α) (B : Nat) :
    (batchSlices qs B).length = totalBatches qs.length B := by
  simp [batchSlices]

theorem batchSlices_size_le (qs : List α) (B : Nat) :
    ∀ b ∈ batchSlices qs B, b.length ≤ B := by
  intro b hb
  simp only [batchSlices, List.mem_map] at hb
  obtain ⟨i, hi, rfl⟩ := hb
  rw [List.length_take]
  exact Nat.min_le_left _ _

theorem batchSlices_getD (qs : List α) (B i : Nat)
    (hi : i < totalBatches qs.length B) :
    (batchSlices qs B).getD i [] = (qs.drop (i * B)).take B := by
  unfold batchSlices
  rw [List.getD_eq_getElem?_getD, List.getElem?_map, List.getElem?_range hi]
  rfl

theorem batchSlices_full (qs : List α) (B i : Nat) (hB : 1 ≤ B)
    (h : i + 1 < (batchSlices qs B).length) :
    ((batchSlices qs B).getD i []).length = B := by
  rw [batchSlices_length] at h
  rw [batchSlices_getD qs B i (by omega), List.length_take, List.length_drop]
  unfold totalBatches at h
  have h2 : (i + 2) * B ≤ qs.length + B - 1 :=
    (Nat.le_div_iff_mul_le (by omega : 0 < B)).mp (by omega)
  have h3 : (i + 2) * B = i * B + B + B := by ring
  rw [h3] at h2
  generalize i * B = M at h2 ⊢
  omega

theorem batchSlices_ne_nil (qs : List α) (B : Nat) (hB : 1 ≤ B) :
    [] ∉ batchSlices qs B := by
  intro hmem
  simp only [batchSlices, List.mem_map] at hmem
  obtain ⟨i, hi, heq⟩ := hmem
  rw [List.mem_range] at hi
  unfold totalBatches at hi
  have hlen := congrArg List.length heq
  rw [List.length_take, List.length_drop] at hlen
  have h2 : (i + 1) * B ≤ qs.length + B - 1 :=
    (Nat.le_div_iff_mul_le (by omega : 0 < B)).mp (by omega)
  have h3 : (i + 1) * B = i * B + B := by ring
  rw [h3] at h2
  generalize i * B = M at h2 hlen
  simp at hlen
  omega

end BatchingLemmas

section SubmitLemmas

theorem submitLoop_eq_filterMap (submit : Nat → String → Except String String) :
    ∀ l : List (Nat × List String),
      submitLoop submit l = l.filterMap (fun p =>
        match submit p.1 (unionQuery p.2) with
        | Except.ok id => some id
        | Except.error _ => none) := by
  intro l
  induction l with
  | nil => rfl
  | cons p rest ih =>
    rcases p with ⟨i, bq⟩
    rw [List.filterMap_cons]
    cases hsub : submit i (unionQuery bq) with
    | ok id => simp only [submitLoop, hsub, ih]
    | error e => simp only [submitLoop, hsub, ih]

theorem submitLoop_append (submit : Nat → String → Except String String)
    (l1 l2 : List (Nat × List String)) :
    submitLoop submit (l1 ++ l2) = submitLoop submit l1 ++ submitLoop submit l2 := by
  induction l1 with
  | nil => rfl
  | cons p rest ih =>
    rcases p with ⟨i, bq⟩
    cases hsub : submit i (unionQuery bq) with
    | ok id => simp only [List.cons_append, submitLoop, hsub, List.append_eq, ih]
    | error e => simp only [List.cons_append, submitLoop, hsub, List.append_eq, ih]

theorem submitLoop_nil_of_errors (submit : Nat → String → Except String String)
    (h : ∀ i q, ∃ e, submit i q = Except.error e) :
    ∀ l, submitLoop submit l = [] := by
  intro l
  induction l with
  | nil => rfl
  | cons p rest ih =>
    rcases p with ⟨i, bq⟩
    obtain ⟨e, he⟩ := h i (unionQuery bq)
    simp only [submitLoop, he, ih]

end SubmitLemmas

section HandlerLemmas

theorem filterMap_skip_none {β : Type} (f : String → Option β) (a : String)
    (hfa : f a = none) (l : List String) :
    l.filterMap f = (l.filter (fun x => x != a)).filterMap f := by
  induction l with
  | nil => rfl
  | cons x xs ih =>
    by_cases hx : x = a
    · subst hx
      simp [List.filter_cons, List.filterMap_cons, hfa, ih]
    · simp [List.filter_cons, List.filterMap_cons, hx, ih]

theorem allResults_nil_of_qids_nil (env : Env) (h : handlerQids env = []) :
    allResults env = [] := by
  unfold allResults
  rw [h]
  rfl

theorem mem_handler_writes (env : Env) (w : WriteEvent)
    (hw : w ∈ (handler env).writes) :
    w = runWriteEvent env.bucket (allResults env).flatten := by
  unfold handler at hw
  split at hw
  · exact absurd hw (List.not_mem_nil w)
  · split at hw
    · exact absurd hw (List.not_mem_nil w)
    · split at hw
      · exact absurd hw (List.not_mem_nil w)
      · split at hw
        · rw [List.mem_singleton] at hw
          exact hw
        · rw [List.mem_singleton] at hw
          exact hw

end HandlerLemmas

section Claims

/-- C4: every database name returned by the catalog enumeration neither ends
in the reserved suffix `_staging` nor lies in the static denylist (which is
empty in the source), and every table name returned for any database does
not start with the reserved prefix `_`. -/
theorem C4_catalog_filters :
    (∀ pages err d, d ∈ get_databases pages err →
        strEndsWith d "_staging" = false ∧ d ∉ databaseDenylist)
  ∧ (∀ dbn pages err t, t ∈ get_tables dbn pages err →
        strStartsWith t "_" = false) := by
  constructor
  · intro pages err d hd
    cases err with
    | some e => simp [get_databases] at hd
    | none =>
      simp only [get_databases, List.mem_filter, Bool.not_eq_true'] at hd
      exact ⟨hd.2, by simp [databaseDenylist]⟩
  · intro dbn pages err t ht
    cases err with
    | some e => simp [get_tables] at ht
    | none =>
      simp only [get_tables, List.mem_filter, Bool.not_eq_true'] at ht
      exact ht.2

theorem C4_catalog_filters_witness :
    (strEndsWith "db1" "_staging" = false ∧ "db1" ∉ databaseDenylist)
  ∧ strStartsWith "t1" "_" = false :=
  ⟨C4_catalog_filters.1 [["db1"]] none "db1" (by decide),
   C4_catalog_filters.2 "db1" [["t1"]] none "t1" (by decide)⟩

/-- C5: for every non-empty flattened statement sequence and positive batch
size B, the batch windows number exactly ceil(N/B), each window holds at most
B statements, every window except possibly the last holds exactly B, and
concatenating the windows in order reconstructs the original sequence with
no duplication, loss or reordering. -/
theorem C5_batching_partition (tbls : List (String × List String)) (B : Nat)
    (hB : 1 ≤ B) (_hne : sqlQueries tbls ≠ []) :
    (batchSlices (sqlQueries tbls) B).length = ((sqlQueries tbls).length + B - 1) / B
  ∧ (∀ b ∈ batchSlices (sqlQueries tbls) B, b.length ≤ B)
  ∧ (∀ i, i + 1 < (batchSlices (sqlQueries tbls) B).length →
      ((batchSlices (sqlQueries tbls) B).getD i []).length = B)
  ∧ (batchSlices (sqlQueries tbls) B).flatten = sqlQueries tbls := by
  refine ⟨batchSlices_length _ _, batchSlices_size_le _ _, ?_,
    batchSlices_flatten B hB _⟩
  intro i hi
  exact batchSlices_full _ B i hB hi

theorem C5_batching_partition_witness :
    (batchSlices (sqlQueries [("db1", ["t1", "t2", "t3"])]) 2).flatten
      = sqlQueries [("db1", ["t1", "t2", "t3"])] :=
  (C5_batching_partition [("db1", ["t1", "t2", "t3"])] 2 (by decide)
    (by decide)).2.2.2

/-- C7: a batch-submission failure skips exactly that batch — the submission
loop over any prefix/failing-batch/suffix split returns the ids of the
prefix and suffix only — and the ids returned by get_row_count are exactly
the execution ids of successfully submitted batches, in submission order
(the filterMap of the submission oracle over the enumerated batches). -/
theorem C7_submission_failure_isolated
    (submit : Nat → String → Except String String) :
    (∀ l1 l2 i bq e, submit i (unionQuery bq) = Except.error e →
        submitLoop submit (l1 ++ (i, bq) :: l2)
          = submitLoop submit l1 ++ submitLoop submit l2)
  ∧ (∀ tbls B, sqlQueries tbls ≠ [] →
        get_row_count tbls B submit none
          = ((batchSlices (sqlQueries tbls) B).enum).filterMap (fun p =>
              match submit p.1 (unionQuery p.2) with
              | Except.ok id => some id
              | Except.error _ => none)) := by
  constructor
  · intro l1 l2 i bq e he
    rw [submitLoop_append]
    have h2 : submitLoop submit ((i, bq) :: l2) = submitLoop submit l2 := by
      simp only [submitLoop, he]
    rw [h2]
  · intro tbls B hne
    have hq : (sqlQueries tbls).isEmpty = false := by
      cases hqs : sqlQueries tbls with
      | nil => exact absurd hqs hne
      | cons a as => rfl
    have step : get_row_count tbls B submit none
        = submitLoop submit (batchSlices (sqlQueries tbls) B).enum := by
      show (if (sqlQueries tbls).isEmpty then []
            else submitLoop submit (batchSlices (sqlQueries tbls) B).enum)
          = submitLoop submit (batchSlices (sqlQueries tbls) B).enum
      rw [hq]
      simp
    rw [step, submitLoop_eq_filterMap]

theorem C7_submission_failure_isolated_witness :
    submitLoop failFirstSubmit ([] ++ (0, ["q"]) :: [(1, ["q2"])])
        = submitLoop failFirstSubmit [] ++ submitLoop failFirstSubmit [(1, ["q2"])]
  ∧ get_row_count [("db1", ["t1"])] 20 failFirstSubmit none
      = ((batchSlices (sqlQueries [("db1", ["t1"])]) 20).enum).filterMap (fun p =>
          match failFirstSubmit p.1 (unionQuery p.2) with
          | Except.ok id => some id
          | Except.error _ => none) :=
  ⟨(C7_submission_failure_isolated failFirstSubmit).1 [] [(1, ["q2"])] 0 ["q"]
      "boom" rfl,
   (C7_submission_failure_isolated failFirstSubmit).2 [("db1", ["t1"])] 20
      (by decide)⟩

/-- C8: with zero tables across the enumerated databases the batcher yields
no batches (and a size-zero batch is never produced for any input when the
batch size is positive), and the handler short-circuits with the 400
"No tables found to query." result, polling nothing and writing nothing. -/
theorem C8_zero_tables_short_circuit (env : Env) (B : Nat) (hB : 1 ≤ B)
    (hzero : sqlQueries (handlerAllTables env) = []) :
    batchSlices (sqlQueries (handlerAllTables env)) B = []
  ∧ (∀ qs : List String, [] ∉ batchSlices qs B)
  ∧ handler env = { result := { statusCode := 400, body := "No tables found to query." }
                    polled := [], writes := [] } := by
  refine ⟨?_, fun qs => batchSlices_ne_nil qs B hB, ?_⟩
  · rw [hzero]
    simp [batchSlices, totalBatches_zero]
  · have hqids : handlerQids env = [] := by
      unfold handlerQids
      cases henv : env.rowCountOuterError with
      | some e => rfl
      | none =>
        show (if (sqlQueries (handlerAllTables env)).isEmpty then []
              else submitLoop env.submit
                (batchSlices (sqlQueries (handlerAllTables env)) 20).enum) = []
        rw [hzero]
        rfl
    unfold handler
    rw [hqids]
    rfl

theorem C8_zero_tables_short_circuit_witness :
    handler emptyEnv
      = { result := { statusCode := 400, body := "No tables found to query." }
          polled := [], writes := [] } :=
  (C8_zero_tables_short_circuit emptyEnv 20 (by decide) (by decide)).2.2

/-- C9: an enumeration exception yields the empty list for that scope —
`get_databases` returns no databases, `get_tables` returns no tables for
that database — and the handler never propagates an exception: every
invocation returns one of the three structured results (200, 400 or 500). -/
theorem C9_enumeration_failure_nonfatal :
    (∀ pages e, get_databases pages (some e) = [])
  ∧ (∀ dbn pages e, get_tables dbn pages (some e) = [])
  ∧ (∀ env : Env, (handler env).result.statusCode = 200
      ∨ (handler env).result.statusCode = 400
      ∨ (handler env).result.statusCode = 500) := by
  refine ⟨fun _ _ => rfl, fun _ _ _ => rfl, ?_⟩
  intro env
  unfold handler
  split
  · right; left; rfl
  · split
    · right; right; rfl
    · split
      · right; right; rfl
      · split
        · right; right; rfl
        · left; rfl

/-- C10: when every batch submission fails (or the outer exception in
get_row_count empties its result), the handler returns the same 400
"No tables found to query." result as the genuinely-empty-catalog case,
with no polling and no sink write — even though tables were enumerated. -/
theorem C10_all_submissions_fail_400 (env : Env)
    (_htbl : sqlQueries (handlerAllTables env) ≠ [])
    (hfail : env.rowCountOuterError.isSome = true
      ∨ ∀ i q, ∃ e, env.submit i q = Except.error e) :
    handler env = { result := { statusCode := 400, body := "No tables found to query." }
                    polled := [], writes := [] } := by
  have hqids : handlerQids env = [] := by
    unfold handlerQids
    rcases hfail with h | h
    · obtain ⟨e, he⟩ := Option.isSome_iff_exists.mp h
      rw [he]
      rfl
    · cases henv : env.rowCountOuterError with
      | some e => rfl
      | none =>
        show (if (sqlQueries (handlerAllTables env)).isEmpty then []
              else submitLoop env.submit
                (batchSlices (sqlQueries (handlerAllTables env)) 20).enum) = []
        by_cases hq : (sqlQueries (handlerAllTables env)).isEmpty = true
        · rw [if_pos hq]
        · rw [if_neg hq]
          exact submitLoop_nil_of_errors env.submit h _
  unfold handler
  rw [hqids]
  rfl

theorem C10_all_submissions_fail_400_witness :
    handler allErrEnv
      = { result := { statusCode := 400, body := "No tables found to query." }
          polled := [], writes := [] } :=
  C10_all_submissions_fail_400 allErrEnv (by decide)
    (Or.inr (fun _ _ => ⟨"start_query_execution denied", rfl⟩))

/-- C6: a job whose observed terminal state is FAILED or CANCELLED yields
None from the poll-and-fetch step, contributes zero records to the
aggregation (the aggregation equals the one over the remaining ids), and
the run still returns the 200 success result provided some other job
succeeded and the aggregation and write steps do not throw. -/
theorem C6_failed_job_zero_records (env : Env) (id : String)
    (hterm : env.finalState id = AthenaState.FAILED
      ∨ env.finalState id = AthenaState.CANCELLED) :
    get_csv_result (env.finalState id) (env.fetch id) = none
  ∧ allResults env = ((handlerQids env).filter (fun q => q != id)).filterMap
      (fun q => get_csv_result (env.finalState q) (env.fetch q))
  ∧ (∀ id2 rows, id2 ∈ handlerQids env →
      get_csv_result (env.finalState id2) (env.fetch id2) = some rows →
      env.concatError = none → env.writeError = none →
      (handler env).result
        = { statusCode := 200, body := "Successfully listed databases and tables." }) := by
  have hnone : get_csv_result (env.finalState id) (env.fetch id) = none := by
    rcases hterm with h | h <;> simp [get_csv_result, h]
  refine ⟨hnone, ?_, ?_⟩
  · unfold allResults
    exact filterMap_skip_none _ id hnone _
  · intro id2 rows hid2 hres hconcat hwrite
    have hmem : rows ∈ allResults env :=
      List.mem_filterMap.mpr ⟨id2, hid2, hres⟩
    rcases hql : handlerQids env with _ | ⟨q, qs⟩
    · rw [hql] at hid2
      exact absurd hid2 (List.not_mem_nil id2)
    · rcases hr : allResults env with _ | ⟨r, rs⟩
      · rw [hr] at hmem
        exact absurd hmem (List.not_mem_nil rows)
      · unfold handler
        rw [hql, hr, hconcat, hwrite]
        rfl

theorem C6_failed_job_zero_records_witness :
    get_csv_result (mixedEnv.finalState "qid0") (mixedEnv.fetch "qid0") = none
  ∧ (handler mixedEnv).result
      = { statusCode := 200, body := "Successfully listed databases and tables." } := by
  have h := C6_failed_job_zero_records mixedEnv "qid0" (Or.inl (by decide))
  exact ⟨h.1, h.2.2 "qid1" [sampleRow] (by decide) (by decide) rfl rfl⟩

/-- C1 counterexample: at `concatFailEnv` one batch's rows were fetched and
aggregated, then an exception occurs in the aggregation phase — yet the
handler makes ZERO write attempts and returns a 500 error, contradicting the
claimed best-effort salvage write of the partially accumulated relation. -/
theorem C1_claim_counterexample :
    allResults concatFailEnv ≠ []
  ∧ (handler concatFailEnv).writes = []
  ∧ (handler concatFailEnv).result.statusCode = 500 :=
  ⟨by decide, by decide, by decide⟩

/-- C1 amended: the handler has no salvage path.  If an exception occurs
during the aggregation phase after rows were accumulated, NO write is
attempted and the 500 error result is returned.  The only write attempt is
the single normal-path write of the accumulated rows, so when the write
itself throws, exactly one write attempt (carrying the successful batches'
rows) has occurred before the 500 error result.  If zero rows were
aggregated, no write is attempted. -/
theorem C1_amended_no_salvage (env : Env) :
    (allResults env ≠ [] → env.concatError.isSome = true →
        (handler env).writes = [] ∧ (handler env).result.statusCode = 500)
  ∧ (allResults env ≠ [] → env.concatError = none → env.writeError.isSome = true →
        (handler env).writes = [runWriteEvent env.bucket (allResults env).flatten]
      ∧ (handler env).result.statusCode = 500)
  ∧ (allResults env = [] → (handler env).writes = []) := by
  refine ⟨?_, ?_, ?_⟩
  · intro hres hconcat
    obtain ⟨e, he⟩ := Option.isSome_iff_exists.mp hconcat
    rcases hql : handlerQids env with _ | ⟨q, qs⟩
    · exact absurd (allResults_nil_of_qids_nil env hql) hres
    · rcases hr : allResults env with _ | ⟨r, rs⟩
      · exact absurd hr hres
      · unfold handler
        rw [hql, hr, he]
        exact ⟨rfl, rfl⟩
  · intro hres hconcat hwrite
    obtain ⟨e, he⟩ := Option.isSome_iff_exists.mp hwrite
    rcases hql : handlerQids env with _ | ⟨q, qs⟩
    · exact absurd (allResults_nil_of_qids_nil env hql) hres
    · rcases hr : allResults env with _ | ⟨r, rs⟩
      · exact absurd hr hres
      · unfold handler
        rw [hql, hr, hconcat, he]
        exact ⟨rfl, rfl⟩
  · intro hres
    rcases hql : handlerQids env with _ | ⟨q, qs⟩
    · unfold handler
      rw [hql]
      rfl
    · unfold handler
      rw [hql, hres]
      rfl

theorem C1_amended_no_salvage_witness :
    (handler writeFailEnv).writes
        = [runWriteEvent writeFailEnv.bucket (allResults writeFailEnv).flatten]
  ∧ (handler writeFailEnv).result.statusCode = 500 :=
  (C1_amended_no_salvage writeFailEnv).2.1 (by decide) rfl rfl

/-- C2 counterexample: after the fully successful run at `okEnv`, applying
the run's single write to a sink that holds a prior run's record deletes
that record — the sink afterwards is exactly the current run's rows —
because the write uses mode overwrite, contradicting the claimed
append-only, never-delete behaviour. -/
theorem C2_claim_counterexample :
    (handler okEnv).writes.foldl applyWrite [priorRecord] = [sampleRow]
  ∧ priorRecord ∉ (handler okEnv).writes.foldl applyWrite [priorRecord] :=
  ⟨by decide, by decide⟩

/-- C2 amended: every sink write the handler attempts uses mode overwrite,
and its effect on any prior sink content is full replacement by the current
run's rows — prior runs' records are deleted, not appended to. -/
theorem C2_amended_overwrite (env : Env) (w : WriteEvent)
    (hw : w ∈ (handler env).writes) :
    w.mode = "overwrite" ∧ ∀ prior, applyWrite prior w = w.rows := by
  have hw2 := mem_handler_writes env w hw
  subst hw2
  refine ⟨rfl, fun prior => ?_⟩
  simp [applyWrite, runWriteEvent]

theorem C2_amended_overwrite_witness :
    (runWriteEvent "bkt" [sampleRow]).mode = "overwrite"
  ∧ ∀ prior, applyWrite prior (runWriteEvent "bkt" [sampleRow])
      = (runWriteEvent "bkt" [sampleRow]).rows :=
  C2_amended_overwrite okEnv (runWriteEvent "bkt" [sampleRow]) (by decide)

/-- C3 counterexample: the successful run at `okEnv` writes rows whose
column list is exactly the three query columns; no `last_updated` column
exists anywhere in the row-count pipeline's output, so its records carry no
timestamp at all. -/
theorem C3_claim_counterexample :
    (handler okEnv).writes.map WriteEvent.columns = [rowCountColumns]
  ∧ "last_updated" ∉ rowCountColumns :=
  ⟨by decide, by decide⟩

/-- C3 amended: the glue row-count pipeline stamps nothing — every write it
attempts carries exactly the three query columns, which do not include
`last_updated`; the query-monitoring lambda, by contrast, stamps every
record of one run with the single identical `last_updated` value captured
once after aggregation. -/
theorem C3_amended_stamping :
    (∀ env : Env, ∀ w ∈ (handler env).writes, w.columns = rowCountColumns)
  ∧ "last_updated" ∉ rowCountColumns
  ∧ (∀ ids details now p,
        p ∈ MonitoringLambda.monitoring_handler ids details now → p.2 = now) := by
  refine ⟨?_, by decide, ?_⟩
  · intro env w hw
    rw [mem_handler_writes env w hw]
    rfl
  · intro ids details now p hp
    simp only [MonitoringLambda.monitoring_handler] at hp
    split at hp
    · exact absurd hp (List.not_mem_nil p)
    · obtain ⟨d, _, rfl⟩ := List.mem_map.mp hp
      rfl

theorem C3_amended_stamping_witness :
    (runWriteEvent "bkt" [sampleRow]).columns = rowCountColumns
  ∧ (MonitoringLambda.sampleDetail, 99).2 = 99 :=
  ⟨C3_amended_stamping.1 okEnv (runWriteEvent "bkt" [sampleRow]) (by decide),
   C3_amended_stamping.2.2 ["id1"] (fun _ => [MonitoringLambda.sampleDetail]) 99
     (MonitoringLambda.sampleDetail, 99) (by decide)⟩

end Claims

end GlueLambda
